import Mathlib

/-!
Shallow embedding of the DC2 postage-stamp notebook: the cutout fetcher
(`cutout_coadd_spherepoint` and its wrappers), the residual compositor
(central-row slices, `scaling`, the PSF center crop, `cutout_minus_psf`,
and the residual exposure cell), and the batch loop over a catalog of
target coordinates.

Real-valued pixel data is embedded as rationals; numpy arrays become
rectangular lists of lists carrying an element-dtype tag; the butler is an
oracle with a read trace; numpy/python slicing and floor division are
embedded with Python semantics (`pySlice`, `Int.fdiv`).
-/

/-- Element dtype of a numpy array (only the two kinds the notebook uses). -/
inductive DType where
  | float32
  | float64
deriving DecidableEq, Repr

/-- A numpy 2-D array: row-major data plus its element dtype. -/
structure NDArr where
  data : List (List ℚ)
  dtype : DType

/-- A numpy scalar (e.g. the result of `np.sum`), carrying its dtype. -/
structure NpScalar where
  val : ℚ
  dtype : DType

/-- numpy dtype promotion for the kinds in play: float32 with float32 stays
float32, anything involving float64 is float64. -/
def promote : DType → DType → DType
  | DType.float32, DType.float32 => DType.float32
  | _, _ => DType.float64

/-- Resolve one Python slice endpoint against a list of length `n`:
negative indices count from the end, and endpoints clamp to `[0, n]`. -/
def pyIdx (n : Nat) (i : Int) : Nat :=
  if i < 0 then min ((n : Int) + i).toNat n else min i.toNat n

/-- Python slice `xs[start:stop]` with integer (possibly negative) endpoints. -/
def pySlice {α : Type} (xs : List α) (start stop : Int) : List α :=
  (xs.take (pyIdx xs.length stop)).drop (pyIdx xs.length start)

/-- `np.shape` of a 2-D array: (number of rows, length of the first row). -/
def NDArr.shape (a : NDArr) : Nat × Nat :=
  (a.data.length, (a.data.headD []).length)

/-- `a[i, :]` — the 1-D row of a 2-D array at row index `i`. -/
def NDArr.rowAt (a : NDArr) (i : Nat) : List ℚ :=
  a.data.getD i []

/-- `a[r1:r2, c1:c2]` — 2-D Python slicing; dtype is preserved. -/
def NDArr.slice2 (a : NDArr) (r1 r2 c1 c2 : Int) : NDArr :=
  ⟨(pySlice a.data r1 r2).map (fun row => pySlice row c1 c2), a.dtype⟩

/-- Elementwise array subtraction `a - b` (equal shapes), with dtype promotion. -/
def NDArr.sub (a b : NDArr) : NDArr :=
  ⟨List.zipWith (List.zipWith (fun x y => x - y)) a.data b.data,
   promote a.dtype b.dtype⟩

/-- Scalar-times-array `s * a`, with dtype promotion. -/
def NDArr.scalarMul (s : NpScalar) (a : NDArr) : NDArr :=
  ⟨a.data.map (List.map (fun x => s.val * x)), promote s.dtype a.dtype⟩

/-- `a.astype(dt)` — cast the element type, keeping the values. -/
def NDArr.astype (a : NDArr) (dt : DType) : NDArr :=
  ⟨a.data, dt⟩

/-- `np.sum` over a 1-D slice of an array whose dtype is `dt`. -/
def npsum (xs : List ℚ) (dt : DType) : NpScalar :=
  ⟨xs.sum, dt⟩

/-- Division of numpy scalars, with dtype promotion. -/
def NpScalar.div (x y : NpScalar) : NpScalar :=
  ⟨x.val / y.val, promote x.dtype y.dtype⟩

/-!
## Residual compositor

Embeds the notebook cell
`cutout_slice = cutout.image.array[cutout_nx//2, :]`,
`kernel_slice = kernel_image.array[kernel_nx//2, :]`,
`scaling = np.sum(cutout_slice)/np.sum(kernel_slice)`,
the crop `kernel_image.array[offset_nx//2:-offset_nx//2, offset_ny//2:-offset_ny//2]`,
`cutout_minus_psf`, and the `residual` exposure construction.
-/

/-- `cutout.image.array[cutout_nx//2, :]` — central-row slice of the cutout. -/
def cutout_slice (cutoutArr : NDArr) : List ℚ :=
  cutoutArr.rowAt (cutoutArr.shape.1 / 2)

/-- `kernel_image.array[kernel_nx//2, :]` — central-row slice of the PSF image. -/
def kernel_slice (kernelArr : NDArr) : List ℚ :=
  kernelArr.rowAt (kernelArr.shape.1 / 2)

/-- `scaling = np.sum(cutout_slice)/np.sum(kernel_slice)`. -/
def scaling (cutoutArr kernelArr : NDArr) : NpScalar :=
  NpScalar.div (npsum (cutout_slice cutoutArr) cutoutArr.dtype)
    (npsum (kernel_slice kernelArr) kernelArr.dtype)

/-- `offset_nx = kernel_nx - cutout_nx` (Python int, may be negative). -/
def offset_nx (cutoutArr kernelArr : NDArr) : Int :=
  (kernelArr.shape.1 : Int) - (cutoutArr.shape.1 : Int)

/-- `offset_ny = kernel_ny - cutout_ny`. -/
def offset_ny (cutoutArr kernelArr : NDArr) : Int :=
  (kernelArr.shape.2 : Int) - (cutoutArr.shape.2 : Int)

/-- The center crop
`kernel_image.array[offset_nx//2:-offset_nx//2, offset_ny//2:-offset_ny//2]`
(Python floor division on both endpoints). -/
def kernel_crop (cutoutArr kernelArr : NDArr) : NDArr :=
  kernelArr.slice2
    (Int.fdiv (offset_nx cutoutArr kernelArr) 2)
    (Int.fdiv (-(offset_nx cutoutArr kernelArr)) 2)
    (Int.fdiv (offset_ny cutoutArr kernelArr) 2)
    (Int.fdiv (-(offset_ny cutoutArr kernelArr)) 2)

/-- `cutout_minus_psf = cutout.image.array - scaling * kernel_image.array[...]`. -/
def cutout_minus_psf (cutoutArr kernelArr : NDArr) : NDArr :=
  cutoutArr.sub
    (NDArr.scalarMul (scaling cutoutArr kernelArr) (kernel_crop cutoutArr kernelArr))

/-- The array stored into the residual exposure:
`cutout_minus_psf.astype(np.float32)`. -/
def residual_image_arr (cutoutArr kernelArr : NDArr) : NDArr :=
  (cutout_minus_psf cutoutArr kernelArr).astype DType.float32

/-- The 1-D crop `kernel_slice[offset_nx//2:-offset_nx//2]` used in the
slice plot. -/
def kernel_slice_cropped (cutoutArr kernelArr : NDArr) : List ℚ :=
  pySlice (kernel_slice kernelArr)
    (Int.fdiv (offset_nx cutoutArr kernelArr) 2)
    (Int.fdiv (-(offset_nx cutoutArr kernelArr)) 2)

/-- The plotted residual slice
`cutout_slice - (scaling * kernel_slice[offset_nx//2:-offset_nx//2])`. -/
def residual_slice (cutoutArr kernelArr : NDArr) : List ℚ :=
  List.zipWith (fun x y => x - (scaling cutoutArr kernelArr).val * y)
    (cutout_slice cutoutArr) (kernel_slice_cropped cutoutArr kernelArr)

/-- One primitive operation performed while computing `scaling`. -/
inductive ScaleOp where
  | npSumOp (xs : List ℚ) (result : ℚ)
  | divOp (num den : ℚ)
deriving DecidableEq

/-- The straight-line operation trace of the `scaling` assignment: two sums
followed unconditionally by one division (there is no guard branch in the
source). Returns the trace together with the computed scalar. -/
def scaling_trace (cutoutArr kernelArr : NDArr) : List ScaleOp × NpScalar :=
  ([ScaleOp.npSumOp (cutout_slice cutoutArr) (cutout_slice cutoutArr).sum,
    ScaleOp.npSumOp (kernel_slice kernelArr) (kernel_slice kernelArr).sum,
    ScaleOp.divOp (cutout_slice cutoutArr).sum (kernel_slice kernelArr).sum],
   NpScalar.div (npsum (cutout_slice cutoutArr) cutoutArr.dtype)
     (npsum (kernel_slice kernelArr) kernelArr.dtype))

/-!
## Exposures, WCS, butler, cutout fetcher
-/

/-- A world-coordinate transform: sky position (degrees) to pixel position. -/
structure Wcs where
  skyToPixel : ℚ × ℚ → ℚ × ℚ

/-- An afw `Exposure`: image, mask and variance planes plus the WCS. -/
structure Exposure where
  image : NDArr
  mask : NDArr
  variance : NDArr
  wcs : Wcs

/-- `Exposure.clone()` — a deep copy; in this functional embedding the clone
starts out equal to the original and later updates leave the original alone. -/
def Exposure.clone (e : Exposure) : Exposure := e

/-- `setImage` replaces only the image plane. -/
def Exposure.setImage (e : Exposure) (img : NDArr) : Exposure :=
  { e with image := img }

/-- The notebook cell `residual = cutout.clone(); residual.setImage(...)`:
returns the cutout binding after the cell together with the residual. -/
def residual_cell (cutout : Exposure) (kernelArr : NDArr) : Exposure × Exposure :=
  let residual := cutout.clone
  let residual2 := residual.setImage (residual_image_arr cutout.image kernelArr)
  (cutout, residual2)

/-- `patchInfo.getIndex()` result. -/
structure PatchInfo where
  getIndex : Int × Int

/-- Tract metadata: id, WCS, and patch lookup. -/
structure TractInfo where
  getId : Int
  getWcs : Wcs
  findPatch : ℚ × ℚ → PatchInfo

/-- The tiling scheme: sky position to tract. -/
structure SkyMap where
  findTract : ℚ × ℚ → TractInfo

/-- `afwGeom.ExtentI` — a 2-D integer extent. -/
structure ExtentI where
  x : Int
  y : Int
deriving DecidableEq

/-- `afwGeom.PointI` — a 2-D integer point. -/
structure PointI where
  x : Int
  y : Int
deriving DecidableEq

/-- `afwGeom.BoxI` — an axis-aligned integer box (origin and dimensions). -/
structure BoxI where
  minX : Int
  minY : Int
  width : Int
  height : Int
deriving DecidableEq

/-- `ExtentI // 2` — componentwise Python floor division. -/
def ExtentI.floorDiv (e : ExtentI) (k : Int) : ExtentI :=
  ⟨Int.fdiv e.x k, Int.fdiv e.y k⟩

/-- `xy - extent` — point minus extent. -/
def PointI.subExtent (p : PointI) (e : ExtentI) : PointI :=
  ⟨p.x - e.x, p.y - e.y⟩

/-- `BoxI(corner, size)` — box from minimum corner and dimensions. -/
def BoxI.ofCornerSize (c : PointI) (s : ExtentI) : BoxI :=
  ⟨c.x, c.y, s.x, s.y⟩

/-- `afwGeom.PointI(point2D)` — nearest-integer conversion of a floating
point position to a pixel index (external afw behavior). -/
def pointI (p : ℚ × ℚ) : PointI :=
  ⟨round p.1, round p.2⟩

/-- `"%d,%d" % patchInfo.getIndex()`. -/
def fmtPatch (idx : Int × Int) : String :=
  toString idx.1 ++ "," ++ toString idx.2

/-- The dataId `{'tract': ..., 'patch': "i,j", 'filter': ...}`. -/
structure DataId where
  tract : Int
  patch : String
  filter : String
deriving DecidableEq

/-- Errors an embedded fetch can surface. `UnsupportedKind` is the error the
specification demands for an unsupported `datasetType`; the embedded source
never produces it. -/
inductive Err where
  | UnsupportedKind
  | NotFound (key : String)
deriving DecidableEq

/-- One read issued against the butler (the storage collaborator). -/
inductive ReadRequest where
  | skyMapRead (key : String)
  | subRead (key : String) (bbox : BoxI) (dataId : DataId)
deriving DecidableEq

/-- The butler oracle: skymap lookup by dataset key, and bounded sub-image
reads keyed by dataset key, bounding box and dataId. `none` means the read
fails (surfacing as an error). -/
structure Butler where
  skyMaps : String → Option SkyMap
  subImages : String → BoxI → DataId → Option Exposure

/-- The tail of `cutout_coadd_spherepoint` once a skymap is in hand: tract
and patch lookup, pixel center, bounding box, and the
`butler.get(datasetType+'_sub', bbox=bbox, dataId=coaddId)` read. Returns
the result with the trace of butler reads. -/
def cutout_from_skymap (butler : Butler) (radec : ℚ × ℚ) (filt : String)
    (datasetType : String) (skymap : SkyMap) (cutoutSize : ExtentI) :
    Except Err Exposure × List ReadRequest :=
  let tractInfo := skymap.findTract radec
  let patchInfo := tractInfo.findPatch radec
  let xy := pointI (tractInfo.getWcs.skyToPixel radec)
  let bbox := BoxI.ofCornerSize (xy.subExtent (cutoutSize.floorDiv 2)) cutoutSize
  let coaddId : DataId := ⟨tractInfo.getId, fmtPatch patchInfo.getIndex, filt⟩
  match butler.subImages (datasetType ++ "_sub") bbox coaddId with
  | none => (Except.error (Err.NotFound (datasetType ++ "_sub")),
             [ReadRequest.subRead (datasetType ++ "_sub") bbox coaddId])
  | some img => (Except.ok img,
                 [ReadRequest.subRead (datasetType ++ "_sub") bbox coaddId])

/-- `cutout_coadd_spherepoint(butler, radec, filter, datasetType, skymap,
cutoutSideLength)`: fetch the skymap via
`butler.get(datasetType + "_skyMap")` when none is passed, then cut out. -/
def cutout_coadd_spherepoint (butler : Butler) (radec : ℚ × ℚ) (filt : String)
    (datasetType : String) (skymap : Option SkyMap) (cutoutSideLength : Int) :
    Except Err Exposure × List ReadRequest :=
  let cutoutSize : ExtentI := ⟨cutoutSideLength, cutoutSideLength⟩
  match skymap with
  | some sm => cutout_from_skymap butler radec filt datasetType sm cutoutSize
  | none =>
    match butler.skyMaps (datasetType ++ "_skyMap") with
    | none => (Except.error (Err.NotFound (datasetType ++ "_skyMap")),
               [ReadRequest.skyMapRead (datasetType ++ "_skyMap")])
    | some sm =>
      let r := cutout_from_skymap butler radec filt datasetType sm cutoutSize
      (r.1, ReadRequest.skyMapRead (datasetType ++ "_skyMap") :: r.2)

/-- `cutout_coadd_ra_dec` — trivial wrapper building the SpherePoint and
using the default `skymap=None`, `cutoutSideLength=51`. -/
def cutout_coadd_ra_dec (butler : Butler) (ra dec : ℚ) (filt : String)
    (datasetType : String) : Except Err Exposure × List ReadRequest :=
  cutout_coadd_spherepoint butler (ra, dec) filt datasetType none 51

/-- `make_cutout_image` — its fetch calls
`cutout_coadd_ra_dec(butler, ra, dec, filter=filter, datasetType='deepCoadd')`,
hardcoding the dataset type; the display-related parameters do not affect
the fetched image. -/
def make_cutout_image (butler : Butler) (ra dec : ℚ) (filt : String)
    (vmin vmax : Option ℚ) (label : Option String) (showPlot : Bool)
    (saveplot savefits : Option String) (datasetType : String) :
    Except Err Exposure × List ReadRequest :=
  cutout_coadd_ra_dec butler ra dec filt "deepCoadd"

/-- `display_cutout_image` — its fetch calls
`cutout_coadd_ra_dec(butler, ra, dec, filter='r', datasetType='deepCoadd')`,
hardcoding both the filter and the dataset type. -/
def display_cutout_image (butler : Butler) (ra dec : ℚ)
    (vmin vmax : Option ℚ) (label : Option String) (frame : Option Int)
    (backend : String) (showPlot : Bool) (saveplot savefits : Option String)
    (old_matplotlib : Bool) (datasetType : String) :
    Except Err Exposure × List ReadRequest :=
  cutout_coadd_ra_dec butler ra dec "r" "deepCoadd"

/-- The skymap actually consulted by `cutout_coadd_spherepoint`: the one
passed in, else the butler's. -/
def usedSkyMap (butler : Butler) (datasetType : String)
    (skymap : Option SkyMap) : Option SkyMap :=
  match skymap with
  | some sm => some sm
  | none => butler.skyMaps (datasetType ++ "_skyMap")

/-- The bounding boxes of the sub-image reads in a trace. -/
def subBoxes (tr : List ReadRequest) : List BoxI :=
  tr.filterMap (fun r =>
    match r with
    | ReadRequest.subRead _ bbox _ => some bbox
    | _ => none)

/-- The fetch performed by one iteration of the postage-stamp loop (the
loop body calls `make_cutout_image` with fixed display arguments and
`datasetType` as set in the cell). -/
def loop_fetch (butler : Butler) (filt : String) (target : Int × ℚ × ℚ) :
    Except Err Exposure :=
  (make_cutout_image butler target.2.1 target.2.2 filt
    (some (-3/4)) (some (3/2)) (some ("Object ID: " ++ toString target.1)) false
    (some "stamp.png") (some "stamp.fits") "deepCoadd").1

/-- The loop `for objectId, ra, dec in id_ra_dec: ... make_cutout_image(...)`.
There is no try/except: the first error aborts the iteration. Returns the
object ids whose processing was attempted, and the error if one occurred. -/
def stamps_loop (butler : Butler) (filt : String) :
    List (Int × ℚ × ℚ) → List Int × Option Err
  | [] => ([], none)
  | target :: rest =>
    match loop_fetch butler filt target with
    | Except.error e => ([target.1], some e)
    | Except.ok _ =>
      (target.1 :: (stamps_loop butler filt rest).1,
       (stamps_loop butler filt rest).2)

/-!
## Concrete fixtures used by witnesses and counterexamples
-/

/-- Identity world-coordinate transform. -/
def wcs0 : Wcs := ⟨fun p => p⟩

/-- A one-pixel float32 plane. -/
def arr0 : NDArr := ⟨[[0]], DType.float32⟩

/-- A trivial exposure. -/
def exp0 : Exposure := ⟨arr0, arr0, arr0, wcs0⟩

/-- A trivial tract. -/
def tract0 : TractInfo := ⟨0, wcs0, fun _ => ⟨(0, 0)⟩⟩

/-- A skymap resolving every position to `tract0`. -/
def sm0 : SkyMap := ⟨fun _ => tract0⟩

/-- A butler on which every read succeeds. -/
def butlerAll : Butler := ⟨fun _ => some sm0, fun _ _ _ => some exp0⟩

/-- A skymap whose tract id is the numerator of the right ascension, so a
butler can be made to fail on selected coordinates. -/
def smSel : SkyMap := ⟨fun p => ⟨p.1.num, wcs0, fun _ => ⟨(0, 0)⟩⟩⟩

/-- A butler whose sub-image reads succeed exactly on tract 0. -/
def butlerSel : Butler :=
  ⟨fun _ => some smSel, fun _ _ did => if did.tract = 0 then some exp0 else none⟩

/-- A 51×51 float32 cutout array of zeros. -/
def stampArr : NDArr := ⟨List.replicate 51 (List.replicate 51 (0 : ℚ)), DType.float32⟩

/-- A 61×61 float64 PSF array of zeros. -/
def psfArr : NDArr := ⟨List.replicate 61 (List.replicate 61 (0 : ℚ)), DType.float64⟩

/-- A 1×1 float32 cutout array whose central-row slice sums to 1000. -/
def stampTiny : NDArr := ⟨[[1000]], DType.float32⟩

/-- A 3×3 float64 PSF array whose central-row slice sums to 1/100. -/
def psfTiny : NDArr := ⟨[[0, 0, 0], [0, 1/100, 0], [0, 0, 0]], DType.float64⟩

/-- A 1×2 float64 PSF array whose central-row slice sums to zero. -/
def psfDegenerate : NDArr := ⟨[[1, -1]], DType.float64⟩

/-!
## Helper lemmas
-/

/-- `pyIdx` on a nonnegative endpoint clamps to the length. -/
lemma pyIdx_natCast (n k : Nat) : pyIdx n (k : Int) = min k n := by
  unfold pyIdx
  split <;> omega

/-- The slice `xs[o//2 : (-o)//2]` (Python floor division) on a list of
length `p`, for `0 < o ≤ p`, drops `o / 2` elements at the front and keeps
`p - o` elements: `⌈o/2⌉` are discarded at the back. -/
lemma pySlice_center {α : Type} (xs : List α) (p o : Nat) (hlen : xs.length = p)
    (ho : 0 < o) (hop : o ≤ p) :
    pySlice xs (Int.fdiv (o : Int) 2) (Int.fdiv (-(o : Int)) 2) =
      (xs.drop (o / 2)).take (p - o) := by
  have h1 : Int.fdiv (o : Int) 2 = ((o / 2 : Nat) : Int) := by
    rw [Int.fdiv_eq_ediv _ (by omega)]
    omega
  have h2 : Int.fdiv (-(o : Int)) 2 = -(((o + 1) / 2 : Nat) : Int) := by
    rw [Int.fdiv_eq_ediv _ (by omega)]
    omega
  unfold pySlice
  rw [h1, h2, hlen]
  have e1 : pyIdx p ((o / 2 : Nat) : Int) = o / 2 := by
    unfold pyIdx
    split <;> omega
  have e2 : pyIdx p (-(((o + 1) / 2 : Nat) : Int)) = p - (o + 1) / 2 := by
    unfold pyIdx
    split <;> omega
  rw [e1, e2]
  have hm : p - (o + 1) / 2 = o / 2 + (p - o) := by omega
  rw [hm, ← List.take_drop]

/-- The 2-D center crop equals the drop/take middle block in each axis. -/
lemma kernel_crop_eq (cutoutArr kernelArr : NDArr) (p q m n : Nat)
    (hkl : kernelArr.data.length = p)
    (hkr : ∀ r ∈ kernelArr.data, r.length = q)
    (hcl : cutoutArr.data.length = m)
    (hch : (cutoutArr.data.headD []).length = n)
    (hkh : (kernelArr.data.headD []).length = q)
    (hmp : m < p) (hnq : n < q) :
    (kernel_crop cutoutArr kernelArr).data =
      ((kernelArr.data.drop ((p - m) / 2)).take m).map
        (fun r => (r.drop ((q - n) / 2)).take n) := by
  have hox : offset_nx cutoutArr kernelArr = ((p - m : Nat) : Int) := by
    unfold offset_nx NDArr.shape
    rw [hkl, hcl]
    omega
  have hoy : offset_ny cutoutArr kernelArr = ((q - n : Nat) : Int) := by
    unfold offset_ny NDArr.shape
    rw [hkh, hch]
    omega
  unfold kernel_crop NDArr.slice2
  rw [hox, hoy]
  rw [pySlice_center kernelArr.data p (p - m) hkl (by omega) (by omega)]
  have hpm : p - (p - m) = m := by omega
  rw [hpm]
  apply List.map_congr_left
  intro r hr
  have hrq : r.length = q :=
    hkr r (List.drop_subset _ _ (List.take_subset _ _ hr))
  rw [pySlice_center r q (q - n) hrq (by omega) (by omega)]
  have hqn : q - (q - n) = n := by omega
  rw [hqn]

/-- Shape of the center crop: `m` rows, each of length `n`. -/
lemma kernel_crop_shape (cutoutArr kernelArr : NDArr) (p q m n : Nat)
    (hkl : kernelArr.data.length = p)
    (hkr : ∀ r ∈ kernelArr.data, r.length = q)
    (hcl : cutoutArr.data.length = m)
    (hch : (cutoutArr.data.headD []).length = n)
    (hkh : (kernelArr.data.headD []).length = q)
    (hmp : m < p) (hnq : n < q) :
    (kernel_crop cutoutArr kernelArr).data.length = m ∧
      ∀ r ∈ (kernel_crop cutoutArr kernelArr).data, r.length = n := by
  rw [kernel_crop_eq cutoutArr kernelArr p q m n hkl hkr hcl hch hkh hmp hnq]
  constructor
  · simp only [List.length_map, List.length_take, List.length_drop, hkl]
    omega
  · intro r hr
    simp only [List.mem_map] at hr
    obtain ⟨r0, hr0, rfl⟩ := hr
    have hq := hkr r0 (List.drop_subset _ _ (List.take_subset _ _ hr0))
    simp only [List.length_take, List.length_drop, hq]
    omega

/-- Claim C1: the residual compositor center-crops the p×q PSF array to the
m×n cutout shape with `[offset//2 : -offset//2]` slices (Python floor
division). The crop keeps the middle block that starts `(p−m)/2` rows
(resp. `(q−n)/2` columns) in — so `⌊(p−m)/2⌋` rows are discarded at the low
side and `⌈(p−m)/2⌉ = (p−m+1)/2` at the high side, asymmetric by one pixel
for odd differences — and the result has exactly m rows of length n. -/
theorem kernel_crop_center_crop (cutoutArr kernelArr : NDArr) (p q m n : Nat)
    (hks : kernelArr.shape = (p, q))
    (hkr : ∀ r ∈ kernelArr.data, r.length = q)
    (hcs : cutoutArr.shape = (m, n))
    (hmp : m < p) (hnq : n < q) :
    (kernel_crop cutoutArr kernelArr).data =
      ((kernelArr.data.drop ((p - m) / 2)).take m).map
        (fun r => (r.drop ((q - n) / 2)).take n) ∧
    (kernel_crop cutoutArr kernelArr).data.length = m ∧
    (∀ r ∈ (kernel_crop cutoutArr kernelArr).data, r.length = n) ∧
    kernelArr.data.length - ((p - m) / 2 + m) = (p - m + 1) / 2 ∧
    (p - m) / 2 + (p - m + 1) / 2 = p - m := by
  obtain ⟨hkl, hkh⟩ : kernelArr.data.length = p ∧
      (kernelArr.data.headD []).length = q := by
    simpa [NDArr.shape, Prod.ext_iff] using hks
  obtain ⟨hcl, hch⟩ : cutoutArr.data.length = m ∧
      (cutoutArr.data.headD []).length = n := by
    simpa [NDArr.shape, Prod.ext_iff] using hcs
  obtain ⟨hlen, hrows⟩ :=
    kernel_crop_shape cutoutArr kernelArr p q m n hkl hkr hcl hch hkh hmp hnq
  refine ⟨kernel_crop_eq cutoutArr kernelArr p q m n hkl hkr hcl hch hkh hmp hnq,
    hlen, hrows, by omega, by omega⟩

/-- Claim C1 witness: for the 51×51 cutout and the 61×61 PSF the crop
discards exactly 5 pixels on each side of each axis, yielding 51×51. -/
theorem kernel_crop_center_crop_witness :
    (kernel_crop stampArr psfArr).data =
      ((psfArr.data.drop 5).take 51).map (fun r => (r.drop 5).take 51) ∧
    (kernel_crop stampArr psfArr).data.length = 51 ∧
    ∀ r ∈ (kernel_crop stampArr psfArr).data, r.length = 51 := by
  have h := kernel_crop_center_crop stampArr psfArr 61 61 51 51
    (by simp [psfArr, NDArr.shape])
    (by intro r hr; rw [List.eq_of_mem_replicate hr]; simp)
    (by simp [stampArr, NDArr.shape])
    (by norm_num) (by norm_num)
  refine ⟨?_, h.2.1, h.2.2.1⟩
  have h1 := h.1
  norm_num at h1
  exact h1

/-- Subtracting a scalar-multiplied array is the pointwise `x - s * y`. -/
lemma zipWith_sub_map_smul (s : ℚ) (a b : List (List ℚ)) :
    List.zipWith (List.zipWith (fun x y => x - y)) a (b.map (List.map (fun y => s * y))) =
      List.zipWith (List.zipWith (fun x y => x - s * y)) a b := by
  induction a generalizing b with
  | nil => simp
  | cons r a ih =>
    cases b with
    | nil => simp
    | cons r2 b2 =>
      simp only [List.map_cons, List.zipWith_cons_cons, ih b2, List.cons.injEq,
        and_true]
      exact List.zipWith_map_right r r2 (fun y => s * y) (fun x y => x - y)

/-- Every row of a `zipWith (zipWith f)` comes from a row of each input. -/
lemma mem_zipWith_rows {f : ℚ → ℚ → ℚ} :
    ∀ (a b : List (List ℚ)) (r : List ℚ),
      r ∈ List.zipWith (List.zipWith f) a b →
        ∃ r1 ∈ a, ∃ r2 ∈ b, r = List.zipWith f r1 r2 := by
  intro a
  induction a with
  | nil => simp
  | cons x a ih =>
    intro b r hr
    cases b with
    | nil => simp at hr
    | cons y b2 =>
      simp only [List.zipWith_cons_cons, List.mem_cons] at hr
      rcases hr with rfl | hr
      · exact ⟨x, List.mem_cons_self x a, y, List.mem_cons_self y b2, rfl⟩
      · obtain ⟨r1, h1, r2, h2, rfl⟩ := ih b2 r hr
        exact ⟨r1, List.mem_cons_of_mem x h1, r2, List.mem_cons_of_mem y h2, rfl⟩

/-- Claim C6: the stored residual array is the elementwise
`cutout − scale × croppedPSF`, has the cutout's m×n shape, and is
single-precision (`astype(np.float32)`). -/
theorem residual_elementwise (cutoutArr kernelArr : NDArr) (p q m n : Nat)
    (hks : kernelArr.shape = (p, q))
    (hkr : ∀ r ∈ kernelArr.data, r.length = q)
    (hcs : cutoutArr.shape = (m, n))
    (hcr : ∀ r ∈ cutoutArr.data, r.length = n)
    (hmp : m < p) (hnq : n < q) :
    (residual_image_arr cutoutArr kernelArr).data =
      List.zipWith
        (List.zipWith (fun x y => x - (scaling cutoutArr kernelArr).val * y))
        cutoutArr.data (kernel_crop cutoutArr kernelArr).data ∧
    (residual_image_arr cutoutArr kernelArr).data.length = m ∧
    (∀ r ∈ (residual_image_arr cutoutArr kernelArr).data, r.length = n) ∧
    (residual_image_arr cutoutArr kernelArr).dtype = DType.float32 := by
  obtain ⟨hkl, hkh⟩ : kernelArr.data.length = p ∧
      (kernelArr.data.headD []).length = q := by
    simpa [NDArr.shape, Prod.ext_iff] using hks
  obtain ⟨hcl, hch⟩ : cutoutArr.data.length = m ∧
      (cutoutArr.data.headD []).length = n := by
    simpa [NDArr.shape, Prod.ext_iff] using hcs
  obtain ⟨hclen, hcrows⟩ :=
    kernel_crop_shape cutoutArr kernelArr p q m n hkl hkr hcl hch hkh hmp hnq
  have hdata : (residual_image_arr cutoutArr kernelArr).data =
      List.zipWith
        (List.zipWith (fun x y => x - (scaling cutoutArr kernelArr).val * y))
        cutoutArr.data (kernel_crop cutoutArr kernelArr).data := by
    unfold residual_image_arr NDArr.astype cutout_minus_psf NDArr.sub NDArr.scalarMul
    exact zipWith_sub_map_smul (scaling cutoutArr kernelArr).val cutoutArr.data
      (kernel_crop cutoutArr kernelArr).data
  refine ⟨hdata, ?_, ?_, rfl⟩
  · rw [hdata, List.length_zipWith, hcl, hclen]
    omega
  · intro r hr
    rw [hdata] at hr
    obtain ⟨r1, h1, r2, h2, rfl⟩ := mem_zipWith_rows _ _ r hr
    rw [List.length_zipWith, hcr r1 h1, hcrows r2 h2]
    omega

/-- Claim C6 witness: at the concrete 1×1 cutout and 3×3 PSF fixtures the
residual array is 1×1 and float32. -/
theorem residual_elementwise_witness :
    (residual_image_arr stampTiny psfTiny).data.length = 1 ∧
    (∀ r ∈ (residual_image_arr stampTiny psfTiny).data, r.length = 1) ∧
    (residual_image_arr stampTiny psfTiny).dtype = DType.float32 := by
  have h := residual_elementwise stampTiny psfTiny 3 3 1 1
    (by simp [psfTiny, NDArr.shape])
    (by intro r hr; simp only [psfTiny, List.mem_cons, List.not_mem_nil, or_false] at hr
        rcases hr with rfl | rfl | rfl <;> simp)
    (by simp [stampTiny, NDArr.shape])
    (by intro r hr; simp only [stampTiny, List.mem_cons, List.not_mem_nil, or_false] at hr
        subst hr; simp)
    (by norm_num) (by norm_num)
  exact ⟨h.2.1, h.2.2.1, h.2.2.2⟩

/-- Claim C4: both slices are the central row at index `floor(rows/2)`, the
scale is `sum(cutout slice) / sum(psf slice)`, and in the scenario with
slice sums 1000 and 1/100 the scale is 100000 and the plotted residual
slice is `cutout slice − 100000 × psf slice` elementwise. -/
theorem scaling_central_row (cutoutArr kernelArr : NDArr) :
    cutout_slice cutoutArr = cutoutArr.data.getD (cutoutArr.data.length / 2) [] ∧
    kernel_slice kernelArr = kernelArr.data.getD (kernelArr.data.length / 2) [] ∧
    (scaling cutoutArr kernelArr).val =
      (cutout_slice cutoutArr).sum / (kernel_slice kernelArr).sum ∧
    ((cutout_slice cutoutArr).sum = 1000 → (kernel_slice kernelArr).sum = 1 / 100 →
      (scaling cutoutArr kernelArr).val = 100000 ∧
      residual_slice cutoutArr kernelArr =
        List.zipWith (fun x y => x - 100000 * y) (cutout_slice cutoutArr)
          (kernel_slice_cropped cutoutArr kernelArr)) := by
  refine ⟨rfl, rfl, rfl, fun hc hk => ?_⟩
  have hval : (scaling cutoutArr kernelArr).val = 100000 := by
    show (cutout_slice cutoutArr).sum / (kernel_slice kernelArr).sum = 100000
    rw [hc, hk]
    norm_num
  exact ⟨hval, by simp only [residual_slice, hval]⟩

/-- Claim C4 witness: concrete arrays realizing the 1000 / (1/100) scenario,
with scale 100000 and residual slice `[1000 − 100000 × (1/100)] = [0]`. -/
theorem scaling_central_row_witness :
    (cutout_slice stampTiny).sum = 1000 ∧
    (kernel_slice psfTiny).sum = 1 / 100 ∧
    (scaling stampTiny psfTiny).val = 100000 ∧
    residual_slice stampTiny psfTiny =
      List.zipWith (fun x y => x - 100000 * y) (cutout_slice stampTiny)
        (kernel_slice_cropped stampTiny psfTiny) := by
  have hc : (cutout_slice stampTiny).sum = 1000 := by
    norm_num [cutout_slice, NDArr.rowAt, NDArr.shape, stampTiny]
  have hk : (kernel_slice psfTiny).sum = 1 / 100 := by
    norm_num [kernel_slice, NDArr.rowAt, NDArr.shape, psfTiny]
  have h := (scaling_central_row stampTiny psfTiny).2.2.2 hc hk
  exact ⟨hc, hk, h.1, h.2⟩

/-- Claim C5: whenever the PSF central-row slice sums to zero, the
straight-line `scaling` computation still performs its division — with
denominator exactly 0 — since the trace has no guard branch: it is always
the same three operations ending in the division, and its result is the
`scaling` value. -/
theorem scaling_division_unguarded (cutoutArr kernelArr : NDArr)
    (h : (kernel_slice kernelArr).sum = 0) :
    ScaleOp.divOp (cutout_slice cutoutArr).sum 0 ∈
        (scaling_trace cutoutArr kernelArr).1 ∧
    (scaling_trace cutoutArr kernelArr).1.length = 3 ∧
    (scaling_trace cutoutArr kernelArr).2 = scaling cutoutArr kernelArr := by
  refine ⟨?_, rfl, rfl⟩
  simp [scaling_trace, h]

/-- Claim C5 witness: a PSF plane whose central row is `[1, −1]` drives the
denominator to zero and the division is still in the executed trace. -/
theorem scaling_division_unguarded_witness :
    (kernel_slice psfDegenerate).sum = 0 ∧
    ScaleOp.divOp (cutout_slice stampTiny).sum 0 ∈
      (scaling_trace stampTiny psfDegenerate).1 := by
  have h0 : (kernel_slice psfDegenerate).sum = 0 := by
    norm_num [kernel_slice, NDArr.rowAt, NDArr.shape, psfDegenerate]
  exact ⟨h0, (scaling_division_unguarded stampTiny psfDegenerate h0).1⟩

/-- Claim C7: the residual cell leaves the fetched cutout unchanged (the
residual is built on a clone) and the residual keeps the cutout's mask,
variance and WCS, replacing only the image plane. -/
theorem residual_cell_preserves_cutout (cutout : Exposure) (kernelArr : NDArr) :
    (residual_cell cutout kernelArr).1 = cutout ∧
    (residual_cell cutout kernelArr).2.mask = cutout.mask ∧
    (residual_cell cutout kernelArr).2.variance = cutout.variance ∧
    (residual_cell cutout kernelArr).2.wcs = cutout.wcs ∧
    (residual_cell cutout kernelArr).2.image =
      residual_image_arr cutout.image kernelArr :=
  ⟨rfl, rfl, rfl, rfl, rfl⟩

/-- Claim C9: the residual compositor is deterministic — on equal input
pairs, the scale, the crop and the residual array are identical. -/
theorem residual_compositor_deterministic (c1 k1 c2 k2 : NDArr)
    (hc : c1 = c2) (hk : k1 = k2) :
    scaling c1 k1 = scaling c2 k2 ∧
    kernel_crop c1 k1 = kernel_crop c2 k2 ∧
    residual_image_arr c1 k1 = residual_image_arr c2 k2 := by
  subst hc
  subst hk
  exact ⟨rfl, rfl, rfl⟩

/-- Claim C9 witness: two runs on the concrete fixture pair agree. -/
theorem residual_compositor_deterministic_witness :
    scaling stampTiny psfTiny = scaling stampTiny psfTiny ∧
    residual_image_arr stampTiny psfTiny = residual_image_arr stampTiny psfTiny := by
  have h := residual_compositor_deterministic stampTiny psfTiny stampTiny psfTiny rfl rfl
  exact ⟨h.1, h.2.2⟩

/-- Once a skymap is in hand, the fetch never raises `UnsupportedKind` and
always issues a read. -/
lemma cutout_from_skymap_result (butler : Butler) (radec : ℚ × ℚ)
    (filt datasetType : String) (sm : SkyMap) (size : ExtentI) :
    (cutout_from_skymap butler radec filt datasetType sm size).1 ≠
        Except.error Err.UnsupportedKind ∧
      (cutout_from_skymap butler radec filt datasetType sm size).2 ≠ [] := by
  simp only [cutout_from_skymap]
  split <;> simp

/-- Claim C2 (amended): for a datasetType other than `deepCoadd` the fetch
raises no `UnsupportedKind`; it performs no kind check and always attempts
at least one butler read (keyed by the given datasetType). -/
theorem cutout_no_kind_check (butler : Butler) (radec : ℚ × ℚ)
    (filt datasetType : String) (skymap : Option SkyMap) (s : Int)
    (hdt : datasetType ≠ "deepCoadd") :
    (cutout_coadd_spherepoint butler radec filt datasetType skymap s).1 ≠
        Except.error Err.UnsupportedKind ∧
      (cutout_coadd_spherepoint butler radec filt datasetType skymap s).2 ≠ [] := by
  cases skymap with
  | some sm =>
    simpa [cutout_coadd_spherepoint] using
      cutout_from_skymap_result butler radec filt datasetType sm ⟨s, s⟩
  | none =>
    simp only [cutout_coadd_spherepoint]
    cases hsm : butler.skyMaps (datasetType ++ "_skyMap") with
    | none => simp
    | some sm =>
      refine ⟨?_, by simp⟩
      simpa using
        (cutout_from_skymap_result butler radec filt datasetType sm ⟨s, s⟩).1

/-- Claim C2 witness: the amended statement at datasetType `calexp` on a
concrete butler. -/
theorem cutout_no_kind_check_witness :
    (cutout_coadd_spherepoint butlerAll (0, 0) "r" "calexp" none 51).1 ≠
        Except.error Err.UnsupportedKind ∧
      (cutout_coadd_spherepoint butlerAll (0, 0) "r" "calexp" none 51).2 ≠ [] :=
  cutout_no_kind_check butlerAll (0, 0) "r" "calexp" none 51 (by decide)

/-- Claim C2 counterexample: with datasetType `calexp` the operation does
not raise `UnsupportedKind` before any read — it succeeds against a butler
that serves every key, and its read trace is nonempty. -/
theorem cutout_unsupported_kind_cex :
    ¬ ((cutout_coadd_spherepoint butlerAll (0, 0) "r" "calexp" none 51).1 =
          Except.error Err.UnsupportedKind ∧
        (cutout_coadd_spherepoint butlerAll (0, 0) "r" "calexp" none 51).2 = []) := by
  intro h
  have h1 : (cutout_coadd_spherepoint butlerAll (0, 0) "r" "calexp" none 51).1 =
      Except.ok exp0 := rfl
  rw [h1] at h
  simp at h

/-- Claim C3: every bounded read issued by the cutout fetch uses the box
whose origin is the requested center pixel minus `s // 2` in each axis and
whose width and height are exactly `s`, for every center position. -/
theorem cutout_bbox_origin_size (butler : Butler) (radec : ℚ × ℚ)
    (filt datasetType : String) (skymap : Option SkyMap) (s : Int) (sm : SkyMap)
    (h : usedSkyMap butler datasetType skymap = some sm) :
    subBoxes (cutout_coadd_spherepoint butler radec filt datasetType skymap s).2 =
      [BoxI.mk
        ((pointI ((sm.findTract radec).getWcs.skyToPixel radec)).x - Int.fdiv s 2)
        ((pointI ((sm.findTract radec).getWcs.skyToPixel radec)).y - Int.fdiv s 2)
        s s] := by
  have hfetch : ∀ sm2 : SkyMap,
      subBoxes (cutout_from_skymap butler radec filt datasetType sm2 ⟨s, s⟩).2 =
        [BoxI.mk
          ((pointI ((sm2.findTract radec).getWcs.skyToPixel radec)).x - Int.fdiv s 2)
          ((pointI ((sm2.findTract radec).getWcs.skyToPixel radec)).y - Int.fdiv s 2)
          s s] := by
    intro sm2
    simp only [cutout_from_skymap]
    split <;>
      simp [subBoxes, BoxI.ofCornerSize, PointI.subExtent, ExtentI.floorDiv]
  cases skymap with
  | some sm2 =>
    have hsm : sm2 = sm := by simpa [usedSkyMap] using h
    subst hsm
    simpa [cutout_coadd_spherepoint] using hfetch sm2
  | none =>
    have hsm : butler.skyMaps (datasetType ++ "_skyMap") = some sm := by
      simpa [usedSkyMap] using h
    simp only [cutout_coadd_spherepoint]
    rw [hsm]
    simpa [subBoxes] using hfetch sm

/-- Claim C3 witness: concrete butler and center, side 51, with the pixel
center at the origin: the read box is `[-25, -25, 51, 51]`. -/
theorem cutout_bbox_origin_size_witness :
    usedSkyMap butlerAll "deepCoadd" none = some sm0 ∧
    subBoxes (cutout_coadd_spherepoint butlerAll (0, 0) "r" "deepCoadd" none 51).2 =
      [BoxI.mk (-25) (-25) 51 51] := by
  have h := cutout_bbox_origin_size butlerAll (0, 0) "r" "deepCoadd" none 51 sm0 rfl
  refine ⟨rfl, ?_⟩
  rw [h]
  norm_num [pointI, sm0, tract0, wcs0, round_zero,
    show Int.fdiv 51 2 = 25 from rfl]

/-- Claim C8: the catalog loop has no try/continue — if every coordinate
before `t` fetches successfully and `t`'s fetch raises, the loop output is
exactly the ids up to and including `t` with the error: nothing after `t`
is processed. -/
theorem stamps_loop_aborts_on_error (butler : Butler) (filt : String)
    (pre post : List (Int × ℚ × ℚ)) (t : Int × ℚ × ℚ) (e : Err)
    (hpre : ∀ x ∈ pre, ∃ img, loop_fetch butler filt x = Except.ok img)
    (ht : loop_fetch butler filt t = Except.error e) :
    stamps_loop butler filt (pre ++ t :: post) =
      (pre.map (fun x => x.1) ++ [t.1], some e) := by
  induction pre with
  | nil => simp [stamps_loop, ht]
  | cons x xs ih =>
    obtain ⟨img, hx⟩ := hpre x (List.mem_cons_self x xs)
    have ih2 := ih (fun y hy => hpre y (List.mem_cons_of_mem x hy))
    simp [stamps_loop, hx, ih2]

/-- Claim C8 witness: on a butler that fails for the second target only,
the loop stops right there — the third target is never attempted. -/
theorem stamps_loop_aborts_on_error_witness :
    stamps_loop butlerSel "r" [(1, (0, 0)), (2, (1, 0)), (3, (0, 0))] =
      ([1, 2], some (Err.NotFound ("deepCoadd" ++ "_sub"))) := by
  have h := stamps_loop_aborts_on_error butlerSel "r" [(1, (0, 0))] [(3, (0, 0))]
    (2, (1, 0)) (Err.NotFound ("deepCoadd" ++ "_sub"))
    (by
      intro x hx
      simp only [List.mem_cons, List.not_mem_nil, or_false] at hx
      subst hx
      exact ⟨exp0, rfl⟩)
    rfl
  simpa using h

/-- Claim C10: `make_cutout_image` ignores its datasetType argument and
`display_cutout_image` ignores its datasetType argument — each hardcodes
`datasetType='deepCoadd'` (and `display_cutout_image` also `filter='r'`)
in its internal fetch, so any two datasetType values (all other arguments
equal) fetch the identical image. -/
theorem dataset_type_ignored (butler : Butler) (ra dec : ℚ) (filt : String)
    (vmin vmax : Option ℚ) (label : Option String) (showPlot : Bool)
    (saveplot savefits : Option String) (frame : Option Int) (backend : String)
    (old_matplotlib : Bool) (dt1 dt2 : String) :
    make_cutout_image butler ra dec filt vmin vmax label showPlot
        saveplot savefits dt1 =
      make_cutout_image butler ra dec filt vmin vmax label showPlot
        saveplot savefits dt2 ∧
    display_cutout_image butler ra dec vmin vmax label frame backend showPlot
        saveplot savefits old_matplotlib dt1 =
      display_cutout_image butler ra dec vmin vmax label frame backend showPlot
        saveplot savefits old_matplotlib dt2 ∧
    make_cutout_image butler ra dec filt vmin vmax label showPlot
        saveplot savefits dt1 =
      cutout_coadd_ra_dec butler ra dec filt "deepCoadd" ∧
    display_cutout_image butler ra dec vmin vmax label frame backend showPlot
        saveplot savefits old_matplotlib dt1 =
      cutout_coadd_ra_dec butler ra dec "r" "deepCoadd" :=
  ⟨rfl, rfl, rfl, rfl⟩
